import Mathlib

/-!
Verification of the ReID training controller (`src/lib/tracking/deepsort/trainer.py`).

A shallow embedding of the experiment-controller logic of `Trainer`:
device selection, model/checkpoint loading, dataloader construction,
checkpoint saving, and the sweep/epoch/validation control flow of
`Trainer.train`.

Conventions of the embedding:
* Python floats that only ever get compared and copied (accuracies,
  learning rates) are modelled as rationals `ℚ`.
* The filesystem is a map from paths to file contents; `torch.save` /
  `torch.load` move Lean values in and out of it.
* Exceptions are modelled with `Except`; a Python function that can raise
  returns `Except PyError α`.
* DataLoaders are built with `shuffle=False` in the source, so a loader is
  modelled as the fixed list of batches it yields, in order.
* The tensor mathematics (forward pass, autograd, optimizer update) is an
  external collaborator; the embedding records the calls the controller
  makes into it as an event trace, which is what the control-flow claims
  are about.
-/

namespace Trainer

/-- A tensor batch `(images, labels)` as yielded by a DataLoader.  The claims
are about which batches the controller touches, so the payload is abstract
data. -/
structure Batch where
  images : List Int
  labels : List Int
deriving Repr, DecidableEq

/-- A model's parameter state (`net.state_dict()` contents): an association
of parameter names to values. -/
def StateDict := List (String × Int)
deriving Repr, DecidableEq

/-- A network object: its trainable parameters.  `get_model` builds one;
`load_state_dict` replaces its parameters. -/
structure Net where
  sd : StateDict
deriving Repr, DecidableEq

/-- A Python value that `save_checkpoint` can place in the `net_dict` slot of
a checkpoint.  The source line `'net_dict' : net.state_dict` stores the bound
method object (no call parentheses), which `torch.save` pickles together with
its `__self__`; a correctly written checkpoint would hold the dictionary
`net.state_dict()`. -/
inductive SavedNetDict where
  | stateDict (sd : StateDict)
  | methodRef (net : Net)
deriving Repr, DecidableEq

/-- The checkpoint structure written by `save_checkpoint`
(lines 92–97): fields `net_dict`, `acc`, `epoch`, `lr`. -/
structure Checkpoint where
  net_dict : SavedNetDict
  acc : ℚ
  epoch : Nat
  lr : ℚ
deriving Repr, DecidableEq

/-- Contents of a file on disk: a pickled checkpoint, or bytes that
`torch.load` cannot deserialize. -/
inductive FileContent where
  | pickled (ck : Checkpoint)
  | corrupt
deriving Repr, DecidableEq

/-- The filesystem: maps a path to the contents of the file there, if any. -/
def FS := String → Option FileContent

/-- Errors the embedded controller code can raise. -/
inductive PyError where
  | nameErrorCfg                      -- NameError: name 'cfg' is not defined
  | deserializationError              -- torch.load on a corrupt file
  | stateDictNotMapping               -- load_state_dict applied to a non-mapping
  | unboundLocalOptimizer             -- UnboundLocalError: local 'optimizer'
  | stopIteration                     -- next(iter(loader)) on an empty loader
deriving Repr, DecidableEq

/-- A compute device, the result of `torch.device(...)`. -/
inductive Device where
  | cpu
  | cuda (idx : Int)
deriving Repr, DecidableEq

/-- Embedding of `Trainer.setup_device` (lines 34–44).  The conditional expression reads
the *global* name `cfg` (`f'cuda:{cfg.GPU}'`) instead of the `device_id`
parameter; the global is bound only when the module runs as `__main__`
(line 223), so `globalCfgGPU` is the value of that binding if it exists.
The f-string is evaluated only when `device_id >= 0 and
torch.cuda.is_available()` holds. -/
def setup_device (globalCfgGPU : Option Int) (cuda_available : Bool)
    (device_id : Int) : Except PyError Device :=
  if 0 ≤ device_id ∧ cuda_available = true then
    match globalCfgGPU with
    | none => .error .nameErrorCfg
    | some g => .ok (.cuda g)
  else
    .ok .cpu

/-- The mutable training-state fields of the `Trainer` object that
`load_model` and `train` read and write: `start_epoch`, `lr`, `best_acc`
(initialised 0, 0, 0. in `__init__`, lines 21–23). -/
structure TrainerState where
  start_epoch : Nat
  lr : ℚ
  best_acc : ℚ
deriving Repr, DecidableEq

/-- Modelled from the spec: the Model Provider (`models.get_extractor.get_model`,
imported at line 13 but not part of `src/`): "given a name and class count,
returns a trainable classifier"; with `reid=False` it returns a freshly
initialised (untrained) classifier head for `num_classes` classes. -/
def get_model (reid_net : String) (num_classes : Nat) : Net :=
  ⟨[(reid_net, 0), ("classifier.out_features", Int.ofNat num_classes)]⟩

/-- Embedding of `net.load_state_dict(v)`: succeeds exactly when `v` is a parameter
mapping, replacing the network's parameters; raises when handed a
non-mapping object such as a bound method. -/
def load_state_dict (net : Net) (v : SavedNetDict) : Except PyError Net :=
  match v with
  | .stateDict sd => .ok { net with sd := sd }
  | .methodRef _ => .error .stateDictNotMapping

/-- Embedding of `Trainer.load_model` (lines 46–57).  Builds a fresh model; if
`os.path.isfile(pretrained)` holds, `torch.load`s the checkpoint (raising on
a corrupt file), applies `load_state_dict` to its `net_dict` field, and
restores `start_epoch`, `best_acc` and `lr` from its `epoch`, `acc` and `lr`
fields.  Otherwise returns the fresh model with the state untouched. -/
def load_model (st : TrainerState) (fs : FS) (reid_net : String)
    (num_classes : Nat) (pretrained : String) :
    Except PyError (TrainerState × Net) :=
  let net := get_model reid_net num_classes
  match fs pretrained with
  | none => .ok (st, net)
  | some .corrupt => .error .deserializationError
  | some (.pickled ck) =>
    match load_state_dict net ck.net_dict with
    | .error e => .error e
    | .ok net1 =>
      .ok ({ st with start_epoch := ck.epoch, best_acc := ck.acc, lr := ck.lr },
           net1)

/-- Embedding of `Trainer.save_checkpoint` (lines 89–98): writes to `filename` a
checkpoint whose `net_dict` slot holds `net.state_dict` — the bound method
object, not the result of calling it — together with the current
`self.best_acc`, the epoch and the learning rate. -/
def save_checkpoint (fs : FS) (filename : String) (net : Net)
    (best_acc : ℚ) (epoch : Nat) (lr : ℚ) : FS :=
  fun p =>
    if p = filename then some (.pickled ⟨.methodRef net, best_acc, epoch, lr⟩)
    else fs p

/-- The dataset-construction arguments `get_dataset` receives in
`load_data`. -/
structure DatasetSpec where
  reid_net : String
  name : String
  root : String
  mode : String
deriving Repr, DecidableEq

/-- The DataLoader-construction arguments used in `load_data`. -/
structure LoaderSpec where
  dataset : DatasetSpec
  shuffle : Bool
  batch_size : Nat
  num_workers : Nat
deriving Repr, DecidableEq

/-- The dataset section of the configuration
(`cfg.dataset.{name, batch_size, workers}`). -/
structure DatasetCfg where
  name : String
  batch_size : Nat
  workers : Nat
deriving Repr, DecidableEq

/-- Embedding of `Trainer.load_data` (lines 59–87): constructs the training loader from
`get_dataset(reid_net, name, root=root, mode='val', tfms=tfms)` with
`shuffle=False`, and the validation loader from an identical
`get_dataset` call with the same loader arguments.  Returns
`(train_loader, val_loader)` specifications. -/
def load_data (reid_net : String) (dcfg : DatasetCfg) (root : String) :
    LoaderSpec × LoaderSpec :=
  let train_dataset : DatasetSpec := ⟨reid_net, dcfg.name, root, "val"⟩
  let train_loader : LoaderSpec :=
    ⟨train_dataset, false, dcfg.batch_size, dcfg.workers⟩
  let val_dataset : DatasetSpec := ⟨reid_net, dcfg.name, root, "val"⟩
  let val_loader : LoaderSpec :=
    ⟨val_dataset, false, dcfg.batch_size, dcfg.workers⟩
  (train_loader, val_loader)

/-- One hyperparameter configuration of the sweep, as produced by
`RunBuilder.get_runs` and consumed in `train`: `run.lr`, `run.optim`,
and the optional flags read with `getattr(run, flag, False)`
(lines 110, 117, 122, 126, 151, 190, 208). -/
structure RunCfg where
  lr : ℚ
  optim : String
  reduce_lr : Bool
  gaussian_mask : Bool
deriving Repr, DecidableEq

/-- An optimizer object as constructed at lines 117–123:
`torch.optim.SGD(net.parameters(), lr, momentum=0.9, weight_decay=5e-4)`
or `torch.optim.Adam(net.parameters(), lr)`. -/
inductive Optimizer where
  | SGD (lr momentum weight_decay : ℚ)
  | Adam (lr : ℚ)
deriving Repr, DecidableEq

/-- The optimizer selection of lines 116–123: an `if`/`elif` with no `else`,
so any other `run.optim` string leaves the local variable `optimizer`
unbound (`none`). -/
def selectOptimizer (optim : String) (lr : ℚ) : Option Optimizer :=
  if optim = "SGD" then some (.SGD lr (9/10) (5/10000))
  else if optim = "Adam" then some (.Adam lr)
  else none

/-- A call the controller makes into the tensor framework or the Metrics
Recorder while processing one batch. -/
inductive StepEvent where
  | maskMul (b : Batch)          -- images * get_gaussian_mask(...)
  | normalize (b : Batch)        -- norm(images)
  | forward (b : Batch)          -- net(tfms_images)
  | lossCompute (b : Batch)      -- criterion(preds, labels)
  | zeroGrad (b : Batch)         -- optimizer.zero_grad()
  | backward (b : Batch)         -- loss.backward()
  | optStep (b : Batch)          -- optimizer.step()
  | trackLoss (b : Batch)        -- runner.track_loss(...)
  | trackNumCorrect (b : Batch)  -- runner.track_num_correct(...)
deriving Repr, DecidableEq

/-- The calls issued for one batch of the training loop body
(lines 148–169): optional mask multiplication, normalization, forward pass,
loss, zero_grad, backward, optimizer step, then loss/accuracy tracking. -/
def trainStepEvents (gaussian_mask : Bool) (b : Batch) : List StepEvent :=
  (if gaussian_mask then [.maskMul b] else []) ++
    [.normalize b, .forward b, .lossCompute b, .zeroGrad b, .backward b,
     .optStep b, .trackLoss b, .trackNumCorrect b]

/-- The calls issued for one batch of the validation loop body
(lines 188–198), run under `torch.no_grad()`: no zero_grad, no backward,
no optimizer step. -/
def valStepEvents (gaussian_mask : Bool) (b : Batch) : List StepEvent :=
  (if gaussian_mask then [.maskMul b] else []) ++
    [.normalize b, .forward b, .lossCompute b, .trackLoss b,
     .trackNumCorrect b]

/-- The full validation pass (lines 187–198): one iteration over every batch
of the validation loader. -/
def valPhaseEvents (gaussian_mask : Bool) (valBatches : List Batch) :
    List StepEvent :=
  valBatches.flatMap (valStepEvents gaussian_mask)

/-- What one iteration of the epoch loop (lines 132–210) did. -/
structure EpochResult where
  trainEvents : List StepEvent   -- calls made by the training phase
  intervalSave : Bool            -- the line-177 interval-policy write ran
  valRan : Bool                  -- the line-183 validation block ran
  valEvents : List StepEvent     -- calls made by the validation pass
  improveSave : Bool             -- the line-205 improvement write ran
  best : ℚ                       -- self.best_acc after the epoch
deriving Repr, DecidableEq

/-- The body of one epoch of `Trainer.train` (lines 132–210).
`optBound` records whether the local `optimizer` was bound by lines
117–123; `valAcc` is the `runner.val_accuracy` the Metrics Recorder
reports for this epoch's validation pass.
* `next(iter(self.train_loader))` (line 144) raises `StopIteration` on an
  empty loader; otherwise the single-pass loop `for i_iter in tqdm(range(1))`
  processes exactly that first batch, reaching `optimizer.zero_grad()`
  (line 158), which raises `UnboundLocalError` if `optimizer` is unbound.
* The interval-policy condition is the source text
  `epoch+1 % save_interval == 0` (line 177), which groups as
  `(epoch + (1 % save_interval)) == 0`.
* Validation runs iff `epoch+1 == epochTotal` (line 183); on improvement
  (`runner.val_accuracy > self.best_acc`, line 203) the best accuracy is
  updated and one checkpoint write issued (lines 204–205). -/
def epochBody (optBound : Bool) (epochTotal save_interval : Nat)
    (gaussian_mask : Bool) (valAcc : ℚ) (trainBatches valBatches : List Batch)
    (epoch : Nat) (best : ℚ) : Except PyError EpochResult :=
  match trainBatches with
  | [] => .error .stopIteration
  | b :: _ =>
    if optBound = false then .error .unboundLocalOptimizer
    else
      let tev := trainStepEvents gaussian_mask b
      let isave := epoch + 1 % save_interval == 0
      if epoch + 1 == epochTotal then
        let vev := valPhaseEvents gaussian_mask valBatches
        if valAcc > best then
          .ok ⟨tev, isave, true, vev, true, valAcc⟩
        else
          .ok ⟨tev, isave, true, vev, false, best⟩
      else
        .ok ⟨tev, isave, false, [], false, best⟩

/-- The epoch loop of `train` (line 132): folds `epochBody` over the epoch
indices, threading `self.best_acc`; an exception in an epoch aborts the loop
(tagged with the epoch index at which it was raised). -/
def epochLoop (optBound : Bool) (epochTotal save_interval : Nat)
    (gaussian_mask : Bool) (valAcc : Nat → ℚ)
    (trainBatches valBatches : List Batch) :
    List Nat → ℚ → Except (Nat × PyError) (List (Nat × EpochResult) × ℚ)
  | [], best => .ok ([], best)
  | e :: es, best =>
    match epochBody optBound epochTotal save_interval gaussian_mask
        (valAcc e) trainBatches valBatches e best with
    | .error err => .error (e, err)
    | .ok r =>
      match epochLoop optBound epochTotal save_interval gaussian_mask valAcc
          trainBatches valBatches es r.best with
      | .error err => .error err
      | .ok (rs, bf) => .ok ((e, r) :: rs, bf)

/-- A completed run of the sweep body. -/
structure RunResult where
  bestAtLoopStart : ℚ               -- self.best_acc when the epoch loop starts
  epochResults : List (Nat × EpochResult)
  bestBeforeReset : ℚ               -- self.best_acc after the last epoch
deriving Repr, DecidableEq

/-- How far one iteration of `for run in self.runs` (lines 107–212) got. -/
inductive RunProgress where
  | abortedBeforeEpochLoop (e : PyError)
  | abortedInEpochLoop (epoch : Nat) (e : PyError)
  | completed (r : RunResult) (st : TrainerState)
deriving Repr, DecidableEq

/-- One iteration of the sweep loop of `Trainer.train` (lines 107–212):
set `self.lr = run.lr` (line 110); `load_model` with the configured
pretrained path (line 111); optimizer selection (lines 116–123); scheduler
construction (lines 126–129), whose constructor call reads `optimizer` and so
raises `UnboundLocalError` before the epoch loop when `optimizer` is unbound
and `run.reduce_lr` holds; the epoch loop over
`range(self.start_epoch, epochTotal)`; and finally `self.best_acc = 0`
(line 212).  `shuffle=False` makes both loaders yield the same batch lists
every epoch, so they are fixed parameters. -/
def runSim (fs : FS) (reid_net : String) (num_classes : Nat)
    (pretrained : String) (epochTotal save_interval : Nat) (valAcc : Nat → ℚ)
    (trainBatches valBatches : List Batch) (run : RunCfg)
    (st0 : TrainerState) : RunProgress :=
  let st1 := { st0 with lr := run.lr }
  match load_model st1 fs reid_net num_classes pretrained with
  | .error e => .abortedBeforeEpochLoop e
  | .ok (st2, _net) =>
    let opt := selectOptimizer run.optim st2.lr
    if run.reduce_lr = true ∧ opt.isNone then
      .abortedBeforeEpochLoop .unboundLocalOptimizer
    else
      let epochs := List.range' st2.start_epoch (epochTotal - st2.start_epoch)
      match epochLoop opt.isSome epochTotal save_interval run.gaussian_mask
          valAcc trainBatches valBatches epochs st2.best_acc with
      | .error (e, err) => .abortedInEpochLoop e err
      | .ok (rs, bf) =>
        .completed ⟨st2.best_acc, rs, bf⟩ { st2 with best_acc := 0 }

/-- The sweep loop `for run in self.runs` (line 107): runs execute strictly
sequentially over the shared `Trainer` state; an uncaught exception in a run
aborts the whole sweep.  Returns, for each run that started, the trainer
state at the top of its iteration and how far it got, plus the final state. -/
def sweepSim (fs : FS) (reid_net : String) (num_classes : Nat)
    (pretrained : String) (epochTotal save_interval : Nat) (valAcc : Nat → ℚ)
    (trainBatches valBatches : List Batch) :
    List RunCfg → TrainerState → List (TrainerState × RunProgress) × TrainerState
  | [], st => ([], st)
  | run :: rest, st =>
    match runSim fs reid_net num_classes pretrained epochTotal
        save_interval valAcc trainBatches valBatches run st with
    | .completed r st1 =>
      ((st, .completed r st1) ::
         (sweepSim fs reid_net num_classes pretrained epochTotal
            save_interval valAcc trainBatches valBatches rest st1).1,
       (sweepSim fs reid_net num_classes pretrained epochTotal
          save_interval valAcc trainBatches valBatches rest st1).2)
    | p => ([(st, p)], st)

/-- The `TrainerState` as initialised by `Trainer.__init__` (lines 21–23):
`start_epoch = 0`, `lr = 0`, `best_acc = 0.`. -/
def initState : TrainerState := ⟨0, 0, 0⟩

/-- The batch an event operates on. -/
def eventBatch : StepEvent → Batch
  | .maskMul b => b
  | .normalize b => b
  | .forward b => b
  | .lossCompute b => b
  | .zeroGrad b => b
  | .backward b => b
  | .optStep b => b
  | .trackLoss b => b
  | .trackNumCorrect b => b

/-- Is the event an `optimizer.step()` call? -/
def StepEvent.isOptStep : StepEvent → Bool
  | .optStep _ => true
  | _ => false

/-- Is the event a `loss.backward()` call? -/
def StepEvent.isBackward : StepEvent → Bool
  | .backward _ => true
  | _ => false

/-- Is the event an `optimizer.zero_grad()` call? -/
def StepEvent.isZeroGrad : StepEvent → Bool
  | .zeroGrad _ => true
  | _ => false

/-- Is the event a `runner.track_loss` call? -/
def StepEvent.isTrackLoss : StepEvent → Bool
  | .trackLoss _ => true
  | _ => false

/-- The successive values of `self.best_acc` over a run: its value when the
epoch loop starts, then its value after each epoch. -/
def RunResult.bestTrajectory (r : RunResult) : List ℚ :=
  r.bestAtLoopStart :: r.epochResults.map (fun x => x.2.best)

/-- An empty filesystem. -/
def fsEmpty : FS := fun _ => none

/-- A sample batch. -/
def batch0 : Batch := ⟨[3, 5], [1, 0]⟩

/-- A filesystem holding one well-formed pretrained checkpoint at `ck.pth`:
parameters `[("w", 1)]`, accuracy `2`, epoch `0`, learning rate `3`. -/
def ckFS : FS := fun p =>
  if p = "ck.pth" then some (.pickled ⟨.stateDict [("w", 1)], 2, 0, 3⟩)
  else none

section Lemmas

/-- Unfolding equation for `epochBody` on a non-empty training loader. -/
theorem epochBody_cons (optB : Bool) (T si : Nat) (gm : Bool) (va : ℚ)
    (b : Batch) (rest vb : List Batch) (e : Nat) (best : ℚ) :
    epochBody optB T si gm va (b :: rest) vb e best =
      if optB = false then .error .unboundLocalOptimizer
      else if e + 1 == T then
        if va > best then
          .ok ⟨trainStepEvents gm b, e + 1 % si == 0, true,
               valPhaseEvents gm vb, true, va⟩
        else
          .ok ⟨trainStepEvents gm b, e + 1 % si == 0, true,
               valPhaseEvents gm vb, false, best⟩
      else
        .ok ⟨trainStepEvents gm b, e + 1 % si == 0, false, [], false, best⟩ :=
  rfl

/-- Everything `epochBody` guarantees about a successfully completed epoch. -/
theorem epochBody_spec (optB : Bool) (T si : Nat) (gm : Bool) (va : ℚ)
    (b : Batch) (rest vb : List Batch) (e : Nat) (best : ℚ) (r : EpochResult)
    (h : epochBody optB T si gm va (b :: rest) vb e best = .ok r) :
    r.trainEvents = trainStepEvents gm b ∧
    r.intervalSave = (e + 1 % si == 0) ∧
    r.valRan = (e + 1 == T) ∧
    (r.valRan = true →
      r.valEvents = valPhaseEvents gm vb ∧
      (va > best → r.improveSave = true ∧ r.best = va) ∧
      (¬ va > best → r.improveSave = false ∧ r.best = best)) ∧
    (r.valRan = false →
      r.valEvents = [] ∧ r.improveSave = false ∧ r.best = best) ∧
    best ≤ r.best := by
  rw [epochBody_cons] at h
  by_cases hopt : optB = false
  · simp [hopt] at h
  · simp only [hopt, if_false] at h
    by_cases hval : e + 1 == T
    · by_cases himp : va > best
      · simp only [hval, himp, if_true, if_pos] at h
        cases h
        simp_all [le_of_lt himp]
      · simp only [hval, himp, if_true, if_neg, if_false] at h
        cases h
        simp_all
    · simp only [hval, if_false] at h
      cases h
      simp_all

/-- An epoch never decreases `self.best_acc`. -/
theorem epochBody_best_le (optB : Bool) (T si : Nat) (gm : Bool) (va : ℚ)
    (b : Batch) (rest vb : List Batch) (e : Nat) (best : ℚ) (r : EpochResult)
    (h : epochBody optB T si gm va (b :: rest) vb e best = .ok r) :
    best ≤ r.best :=
  (epochBody_spec optB T si gm va b rest vb e best r h).2.2.2.2.2

/-- Every epoch result produced by the epoch loop comes from a successful
`epochBody` call at its own epoch index. -/
theorem epochLoop_results (optB : Bool) (T si : Nat) (gm : Bool)
    (va : Nat → ℚ) (tb vb : List Batch) (P : Nat × EpochResult → Prop)
    (hP : ∀ e best r,
      epochBody optB T si gm (va e) tb vb e best = .ok r → P (e, r)) :
    ∀ (es : List Nat) (best : ℚ) (rs : List (Nat × EpochResult)) (bf : ℚ),
      epochLoop optB T si gm va tb vb es best = .ok (rs, bf) →
      ∀ x ∈ rs, P x := by
  intro es
  induction es with
  | nil =>
    intro best rs bf h x hx
    simp only [epochLoop] at h
    cases h
    simp at hx
  | cons e es ih =>
    intro best rs bf h x hx
    simp only [epochLoop] at h
    split at h
    · cases h
    next r hb =>
      split at h
      · cases h
      next rs2 bf2 hl =>
        cases h
        rcases List.mem_cons.mp hx with hx1 | hx2
        · subst hx1; exact hP e best r hb
        · exact ih r.best rs2 bf hl x hx2

/-- The `best_acc` values threaded through the epoch loop form a
non-decreasing chain. -/
theorem epochLoop_chain (optB : Bool) (T si : Nat) (gm : Bool)
    (va : Nat → ℚ) (b : Batch) (rest vb : List Batch) :
    ∀ (es : List Nat) (best : ℚ) (rs : List (Nat × EpochResult)) (bf : ℚ),
      epochLoop optB T si gm va (b :: rest) vb es best = .ok (rs, bf) →
      List.Chain' (· ≤ ·) (best :: rs.map fun x => x.2.best) := by
  intro es
  induction es with
  | nil =>
    intro best rs bf h
    simp only [epochLoop] at h
    cases h
    simp
  | cons e es ih =>
    intro best rs bf h
    simp only [epochLoop] at h
    split at h
    · cases h
    next r hb =>
      split at h
      · cases h
      next rs2 bf2 hl =>
        cases h
        have hch := ih r.best rs2 bf hl
        exact List.Chain'.cons
          (epochBody_best_le optB T si gm (va e) b rest vb e best r hb) hch

/-- The epoch loop never looks past the first batch of the training
loader. -/
theorem epochLoop_tail_irrel (optB : Bool) (T si : Nat) (gm : Bool)
    (va : Nat → ℚ) (b : Batch) (rest rest2 vb : List Batch) :
    ∀ (es : List Nat) (best : ℚ),
      epochLoop optB T si gm va (b :: rest) vb es best =
        epochLoop optB T si gm va (b :: rest2) vb es best := by
  intro es
  induction es with
  | nil => intro best; rfl
  | cons e es ih =>
    intro best
    simp only [epochLoop, epochBody_cons]
    cases optB with
    | false => rfl
    | true =>
      by_cases hval : e + 1 == T
      · by_cases himp : va e > best <;> simp [hval, himp, ih]
      · simp [hval, ih]

/-- Decomposition of a run that completed: it loaded the state `st2`,
ran the epoch loop from `st2.start_epoch` with `st2.best_acc`, and reset
`best_acc` to `0` at the end. -/
theorem runSim_completed (fs : FS) (rn : String) (nc : Nat) (p : String)
    (T si : Nat) (va : Nat → ℚ) (tb vb : List Batch) (run : RunCfg)
    (st0 : TrainerState) (r : RunResult) (stf : TrainerState)
    (h : runSim fs rn nc p T si va tb vb run st0 = .completed r stf) :
    ∃ (st2 : TrainerState) (net : Net),
      load_model { st0 with lr := run.lr } fs rn nc p = .ok (st2, net) ∧
      epochLoop (selectOptimizer run.optim st2.lr).isSome T si
          run.gaussian_mask va tb vb
          (List.range' st2.start_epoch (T - st2.start_epoch)) st2.best_acc
        = .ok (r.epochResults, r.bestBeforeReset) ∧
      r.bestAtLoopStart = st2.best_acc ∧
      stf = { st2 with best_acc := 0 } := by
  simp only [runSim] at h
  split at h
  · cases h
  next st2 net hload =>
    split at h
    · cases h
    · split at h
      · cases h
      next rs bf hl =>
        cases h
        exact ⟨st2, net, hload, hl, rfl, rfl⟩

/-- A completed run ends with `self.best_acc = 0` (line 212). -/
theorem runSim_completed_reset (fs : FS) (rn : String) (nc : Nat) (p : String)
    (T si : Nat) (va : Nat → ℚ) (tb vb : List Batch) (run : RunCfg)
    (st0 : TrainerState) (r : RunResult) (stf : TrainerState)
    (h : runSim fs rn nc p T si va tb vb run st0 = .completed r stf) :
    stf.best_acc = 0 := by
  obtain ⟨st2, net, _, _, _, hstf⟩ :=
    runSim_completed fs rn nc p T si va tb vb run st0 r stf h
  rw [hstf]

/-- A run never looks past the first batch of the training loader. -/
theorem runSim_tail_irrel (fs : FS) (rn : String) (nc : Nat) (p : String)
    (T si : Nat) (va : Nat → ℚ) (b : Batch) (rest rest2 vb : List Batch)
    (run : RunCfg) (st0 : TrainerState) :
    runSim fs rn nc p T si va (b :: rest) vb run st0 =
      runSim fs rn nc p T si va (b :: rest2) vb run st0 := by
  simp only [runSim]
  cases hload : load_model { st0 with lr := run.lr } fs rn nc p with
  | error e => rfl
  | ok pr =>
    obtain ⟨st2, net⟩ := pr
    dsimp only
    rw [epochLoop_tail_irrel (selectOptimizer run.optim st2.lr).isSome T si
      run.gaussian_mask va b rest rest2 vb
      (List.range' st2.start_epoch (T - st2.start_epoch)) st2.best_acc]

/-- If the sweep starts with `best_acc = 0` then every run iteration starts
with `best_acc = 0` (it is reset at the end of each completed run). -/
theorem sweepSim_start_zero (fs : FS) (rn : String) (nc : Nat) (p : String)
    (T si : Nat) (va : Nat → ℚ) (tb vb : List Batch) :
    ∀ (runs : List RunCfg) (st0 : TrainerState), st0.best_acc = 0 →
      ∀ x ∈ (sweepSim fs rn nc p T si va tb vb runs st0).1,
        x.1.best_acc = 0 := by
  intro runs
  induction runs with
  | nil =>
    intro st0 h0 x hx
    simp [sweepSim] at hx
  | cons run rest ih =>
    intro st0 h0 x hx
    simp only [sweepSim] at hx
    split at hx
    next r st1 hr =>
      rcases List.mem_cons.mp hx with hx1 | hx2
      · rw [hx1]; exact h0
      · exact ih st1
          (runSim_completed_reset fs rn nc p T si va tb vb run st0 r st1 hr)
          x hx2
    next pp hne =>
      rcases List.mem_cons.mp hx with hx1 | hx2
      · rw [hx1]; exact h0
      · simp at hx2

/-- The training step issues exactly one `optimizer.step()` call. -/
theorem trainStepEvents_one_optStep (gm : Bool) (b : Batch) :
    ((trainStepEvents gm b).filter StepEvent.isOptStep).length = 1 := by
  cases gm <;> rfl

/-- The training step issues exactly one `runner.track_loss` call. -/
theorem trainStepEvents_one_trackLoss (gm : Bool) (b : Batch) :
    ((trainStepEvents gm b).filter StepEvent.isTrackLoss).length = 1 := by
  cases gm <;> rfl

/-- Every call of the training step operates on the batch it was given. -/
theorem trainStepEvents_batch (gm : Bool) (b : Batch) :
    ∀ ev ∈ trainStepEvents gm b, eventBatch ev = b := by
  intro ev hev
  cases gm <;> simp [trainStepEvents] at hev <;>
    rcases hev with rfl | rfl | rfl | rfl | rfl | rfl | rfl | rfl | rfl <;> rfl

/-- The validation pass touches every batch of the validation loader:
each contributes a forward pass, a loss-tracking call and an
accuracy-tracking call. -/
theorem valPhaseEvents_covers (gm : Bool) (vb : List Batch) (bb : Batch)
    (hb : bb ∈ vb) :
    StepEvent.forward bb ∈ valPhaseEvents gm vb ∧
    StepEvent.trackLoss bb ∈ valPhaseEvents gm vb ∧
    StepEvent.trackNumCorrect bb ∈ valPhaseEvents gm vb := by
  refine ⟨?_, ?_, ?_⟩ <;>
    (simp only [valPhaseEvents, List.mem_flatMap]
     exact ⟨bb, hb, by cases gm <;> simp [valStepEvents]⟩)

/-- The validation pass never zeroes gradients, runs backward, or steps the
optimizer: gradient computation is disabled. -/
theorem valPhaseEvents_no_grad (gm : Bool) (vb : List Batch) :
    ∀ ev ∈ valPhaseEvents gm vb,
      StepEvent.isZeroGrad ev = false ∧ StepEvent.isBackward ev = false ∧
      StepEvent.isOptStep ev = false := by
  intro ev hev
  simp only [valPhaseEvents, List.mem_flatMap] at hev
  obtain ⟨bb, _, hev⟩ := hev
  cases gm <;> simp [valStepEvents] at hev <;>
    rcases hev with rfl | rfl | rfl | rfl | rfl | rfl <;>
    simp [StepEvent.isZeroGrad, StepEvent.isBackward, StepEvent.isOptStep]

end Lemmas

section Claims

/-- C1: the spec's checkpoint round-trip property is the intent, but the code
is a slip: `save_checkpoint` stores the bound method object `net.state_dict`
(missing call parentheses, line 93) in the `net_dict` slot, so `load_model`
on the file it wrote hits `net.load_state_dict(<bound method>)` (line 53),
which raises instead of restoring the parameters — the reloaded model is
never produced, let alone one with identical outputs.  This theorem
evaluates the embedded code at the failing input: the file written by
`save_checkpoint` holds the method reference, and `load_model` on it
errors. -/
theorem save_checkpoint_then_load_model_fails :
    save_checkpoint fsEmpty "ck.pth" (get_model "osnet" 10) 0 5 (1/10) "ck.pth"
      = some (.pickled ⟨.methodRef (get_model "osnet" 10), 0, 5, 1/10⟩) ∧
    load_model initState
        (save_checkpoint fsEmpty "ck.pth" (get_model "osnet" 10) 0 5 (1/10))
        "osnet" 10 "ck.pth"
      = .error .stateDictNotMapping :=
  ⟨rfl, rfl⟩

/-- C2 (counterexample): the claim says the interval-policy write executes at
every epoch for every `save_interval ≥ 1`.  In a concrete two-epoch run with
`save_interval = 1`, the write executes at epoch 0 but not at epoch 1:
`(epoch + (1 % save_interval)) == 0` is `1 == 0` there. -/
theorem interval_save_skipped_at_epoch_one :
    ∃ (r : RunResult) (stf : TrainerState),
      runSim fsEmpty "osnet" 10 "none" 2 1 (fun _ => 0) [batch0] []
          ⟨1/10, "SGD", false, false⟩ initState = .completed r stf ∧
      (r.epochResults.map fun x => (x.1, x.2.intervalSave))
        = [(0, true), (1, false)] :=
  ⟨_, _, rfl, rfl⟩

/-- C2 (amended): the source text `epoch+1 % self.cfg.train.save_interval == 0`
(line 177) groups as `(epoch + (1 % save_interval)) == 0`, so for any
configured `save_interval ≥ 1` the interval-policy checkpoint write executes
exactly at epoch 0 of a run with `save_interval = 1`, and never at any other
epoch or for any larger interval. -/
theorem interval_save_iff_epoch_zero_and_interval_one (optB : Bool)
    (T si : Nat) (gm : Bool) (va : ℚ) (b : Batch) (rest vb : List Batch)
    (e : Nat) (best : ℚ) (r : EpochResult) (hsi : 1 ≤ si)
    (h : epochBody optB T si gm va (b :: rest) vb e best = .ok r) :
    r.intervalSave = true ↔ (si = 1 ∧ e = 0) := by
  have hs := (epochBody_spec optB T si gm va b rest vb e best r h).2.1
  rw [hs, beq_iff_eq]
  obtain _ | _ | k := si
  · omega
  · simp
  · have h2 : 1 % (k + 2) = 1 := Nat.mod_eq_of_lt (by omega)
    rw [h2]
    omega

/-- Witness for the amended C2 theorem at `save_interval = 1`, `epoch = 0`. -/
theorem interval_save_iff_epoch_zero_and_interval_one_witness :
    (1:Nat) ≤ 1 ∧
    ∃ r : EpochResult,
      epochBody true 1 1 false (1/2) [batch0] [batch0] 0 0 = .ok r ∧
      (r.intervalSave = true ↔ ((1:Nat) = 1 ∧ (0:Nat) = 0)) :=
  by
  have h : epochBody true 1 1 false (1/2) [batch0] [batch0] 0 0 =
      .ok ⟨trainStepEvents false batch0, true, true,
           valPhaseEvents false [batch0], true, 1/2⟩ := by
    norm_num [epochBody]
  exact ⟨le_refl 1, _, h,
    interval_save_iff_epoch_zero_and_interval_one true 1 1 false (1/2) batch0
      [] [batch0] 0 0 _ (le_refl 1) h⟩

/-- C3 (counterexample): the claim says the best-accuracy field equals 0 at
the start of every run, including when a pretrained checkpoint path is
configured.  With the configured pretrained path naming an existing
checkpoint whose `acc` field is `2`, the run reaches its epoch loop with
`best_acc = 2`, not `0`: `load_model` (line 55) restores
`self.best_acc = checkpoint['acc']` after the end-of-run reset and before
the epoch loop. -/
theorem best_acc_nonzero_at_run_start_with_pretrained :
    ∃ (r : RunResult) (stf : TrainerState),
      runSim ckFS "osnet" 10 "ck.pth" 1 1 (fun _ => 0) [batch0] []
          ⟨1, "SGD", false, false⟩ initState = .completed r stf ∧
      r.bestAtLoopStart = 2 ∧ ¬ r.bestAtLoopStart = 0 :=
  ⟨_, _, rfl, rfl, by norm_num⟩

/-- C3 (amended): `self.best_acc` is reset to zero at the end of every
completed run (line 212), so every sweep entry starts its iteration with
best accuracy 0, and over the epochs of a run the best accuracy is
monotonically non-decreasing.  However, at the start of a run's epoch loop it
equals 0 only when the configured pretrained path names no existing file:
when the file exists, `load_model` sets it to the checkpoint's `acc` field,
which need not be zero. -/
theorem best_acc_reset_monotone_and_loop_start (fs : FS) (rn : String)
    (nc : Nat) (p : String) (T si : Nat) (va : Nat → ℚ) (b : Batch)
    (rest vb : List Batch) (runs : List RunCfg) (st0 : TrainerState)
    (run : RunCfg) (st : TrainerState) (r : RunResult) (stf : TrainerState)
    (h0 : st0.best_acc = 0)
    (hrun : runSim fs rn nc p T si va (b :: rest) vb run st
      = .completed r stf) :
    (∀ x ∈ (sweepSim fs rn nc p T si va (b :: rest) vb runs st0).1,
        x.1.best_acc = 0) ∧
    List.Chain' (· ≤ ·) r.bestTrajectory ∧
    stf.best_acc = 0 ∧
    (fs p = none → r.bestAtLoopStart = st.best_acc) ∧
    (∀ ck, fs p = some (.pickled ck) → r.bestAtLoopStart = ck.acc) := by
  obtain ⟨st2, net, hload, hloop, hstart, hstf⟩ :=
    runSim_completed fs rn nc p T si va (b :: rest) vb run st r stf hrun
  refine ⟨?_, ?_, ?_, ?_, ?_⟩
  · exact sweepSim_start_zero fs rn nc p T si va (b :: rest) vb runs st0 h0
  · have hch := epochLoop_chain (selectOptimizer run.optim st2.lr).isSome T si
      run.gaussian_mask va b rest vb
      (List.range' st2.start_epoch (T - st2.start_epoch)) st2.best_acc
      r.epochResults r.bestBeforeReset hloop
    rw [RunResult.bestTrajectory, hstart]
    exact hch
  · rw [hstf]
  · intro hfs
    simp only [load_model, hfs] at hload
    cases hload
    rw [hstart]
  · intro ck hfs
    simp only [load_model, hfs] at hload
    cases hnd : ck.net_dict with
    | stateDict sd =>
      rw [hnd] at hload
      simp only [load_state_dict] at hload
      cases hload
      rw [hstart]
    | methodRef net2 =>
      rw [hnd] at hload
      simp only [load_state_dict] at hload
      cases hload

/-- Witness for the amended C3 theorem: a one-epoch sweep over one SGD run
with an existing pretrained checkpoint. -/
theorem best_acc_reset_monotone_and_loop_start_witness :
    ∃ (r : RunResult) (stf : TrainerState),
      runSim ckFS "osnet" 10 "ck.pth" 1 1 (fun _ => 0) [batch0] []
          ⟨1, "SGD", false, false⟩ initState = .completed r stf ∧
      List.Chain' (· ≤ ·) r.bestTrajectory ∧ stf.best_acc = 0 ∧
      r.bestAtLoopStart = (2:ℚ) := by
  obtain ⟨r, stf, hrun⟩ :
      ∃ r stf, runSim ckFS "osnet" 10 "ck.pth" 1 1 (fun _ => 0) [batch0] []
        ⟨1, "SGD", false, false⟩ initState = .completed r stf := ⟨_, _, rfl⟩
  have h := best_acc_reset_monotone_and_loop_start ckFS "osnet" 10 "ck.pth"
    1 1 (fun _ => 0) batch0 [] [] [] initState ⟨1, "SGD", false, false⟩
    initState r stf rfl hrun
  exact ⟨r, stf, hrun, h.2.1, h.2.2.1,
    h.2.2.2.2 ⟨.stateDict [("w", 1)], 2, 0, 3⟩ rfl⟩

/-- C7: if the configured pretrained path names no file, `load_model` returns
the freshly initialised model and leaves `start_epoch`, `best_acc` and `lr`
untouched, raising nothing; if the path holds a well-formed checkpoint, its
`net_dict`, `epoch`, `acc` and `lr` fields are restored; a corrupt file
raises a deserialization error, and an incompatible `net_dict` (a
non-mapping) raises in `load_state_dict`. -/
theorem load_model_missing_file_and_restore (st : TrainerState) (fs : FS)
    (rn : String) (nc : Nat) (p : String) :
    (fs p = none → load_model st fs rn nc p = .ok (st, get_model rn nc)) ∧
    (fs p = some .corrupt →
      load_model st fs rn nc p = .error .deserializationError) ∧
    (∀ ck sd, fs p = some (.pickled ck) → ck.net_dict = .stateDict sd →
      load_model st fs rn nc p =
        .ok ({ st with start_epoch := ck.epoch, best_acc := ck.acc, lr := ck.lr },
             { get_model rn nc with sd := sd })) ∧
    (∀ ck net, fs p = some (.pickled ck) → ck.net_dict = .methodRef net →
      load_model st fs rn nc p = .error .stateDictNotMapping) := by
  refine ⟨?_, ?_, ?_, ?_⟩
  · intro h; simp [load_model, h]
  · intro h; simp [load_model, h]
  · intro ck sd h hnd; simp [load_model, h, hnd, load_state_dict]
  · intro ck net h hnd; simp [load_model, h, hnd, load_state_dict]

/-- Witness for C7 on a concrete missing path and a concrete well-formed
checkpoint. -/
theorem load_model_missing_file_and_restore_witness :
    load_model initState fsEmpty "osnet" 10 "miss.pth"
      = .ok (initState, get_model "osnet" 10) ∧
    load_model initState ckFS "osnet" 10 "ck.pth"
      = .ok (⟨0, 3, 2⟩, { get_model "osnet" 10 with sd := [("w", 1)] }) :=
  ⟨(load_model_missing_file_and_restore initState fsEmpty "osnet" 10
      "miss.pth").1 rfl,
   (load_model_missing_file_and_restore initState ckFS "osnet" 10
      "ck.pth").2.2.1 ⟨.stateDict [("w", 1)], 2, 0, 3⟩ [("w", 1)] rfl rfl⟩

/-- C4: at an epoch where the validation pass ran, if the validation accuracy
strictly exceeds the current best accuracy, the controller sets the best
accuracy to that value and performs exactly the one improvement-triggered
checkpoint write of line 205 (`improveSave` models that single write); if it
does not exceed the best, no improvement-triggered write occurs and the best
accuracy is unchanged. -/
theorem improvement_updates_best_and_saves_once (optB : Bool) (T si : Nat)
    (gm : Bool) (va : ℚ) (b : Batch) (rest vb : List Batch) (e : Nat)
    (best : ℚ) (r : EpochResult)
    (h : epochBody optB T si gm va (b :: rest) vb e best = .ok r)
    (hval : r.valRan = true) :
    (va > best → r.improveSave = true ∧ r.best = va) ∧
    (¬ va > best → r.improveSave = false ∧ r.best = best) := by
  have hs := (epochBody_spec optB T si gm va b rest vb e best r h).2.2.2.1 hval
  exact ⟨hs.2.1, hs.2.2⟩

/-- Witness for C4: final epoch of a one-epoch run, validation accuracy 1
against best 0. -/
theorem improvement_updates_best_and_saves_once_witness :
    ∃ r : EpochResult,
      epochBody true 1 2 false 1 [batch0] [batch0] 0 0 = .ok r ∧
      r.valRan = true ∧ r.improveSave = true ∧ r.best = 1 := by
  refine ⟨_, rfl, rfl, ?_, ?_⟩
  · exact ((improvement_updates_best_and_saves_once true 1 2 false 1 batch0 []
      [batch0] 0 0 _ rfl rfl).1 (by norm_num)).1
  · exact ((improvement_updates_best_and_saves_once true 1 2 false 1 batch0 []
      [batch0] 0 0 _ rfl rfl).1 (by norm_num)).2

/-- C5: in every epoch of every completed run, the training phase processes
exactly one batch — the first batch of the (unshuffled) training loader —
issuing the mask/normalize/forward/loss/backward sequence with exactly one
optimizer step and exactly one loss-tracking call on that batch alone; the
remaining batches of the training source are never iterated (the whole run
is unchanged when they are replaced). -/
theorem train_phase_processes_only_first_batch (fs : FS) (rn : String)
    (nc : Nat) (p : String) (T si : Nat) (va : Nat → ℚ) (b : Batch)
    (rest rest2 vb : List Batch) (run : RunCfg) (st0 : TrainerState)
    (r : RunResult) (stf : TrainerState)
    (hrun : runSim fs rn nc p T si va (b :: rest) vb run st0
      = .completed r stf) :
    (∀ x ∈ r.epochResults,
      x.2.trainEvents = trainStepEvents run.gaussian_mask b ∧
      (x.2.trainEvents.filter StepEvent.isOptStep).length = 1 ∧
      (x.2.trainEvents.filter StepEvent.isTrackLoss).length = 1 ∧
      (∀ ev ∈ x.2.trainEvents, eventBatch ev = b)) ∧
    runSim fs rn nc p T si va (b :: rest2) vb run st0 = .completed r stf := by
  obtain ⟨st2, net, hload, hloop, hstart, hstf⟩ :=
    runSim_completed fs rn nc p T si va (b :: rest) vb run st0 r stf hrun
  constructor
  · intro x hx
    have hte := epochLoop_results (selectOptimizer run.optim st2.lr).isSome
      T si run.gaussian_mask va (b :: rest) vb
      (fun x => x.2.trainEvents = trainStepEvents run.gaussian_mask b)
      (fun e best rr hh =>
        (epochBody_spec _ T si run.gaussian_mask (va e) b rest vb e best rr hh).1)
      (List.range' st2.start_epoch (T - st2.start_epoch)) st2.best_acc
      r.epochResults r.bestBeforeReset hloop x hx
    refine ⟨hte, ?_, ?_, ?_⟩
    · rw [hte]; exact trainStepEvents_one_optStep run.gaussian_mask b
    · rw [hte]; exact trainStepEvents_one_trackLoss run.gaussian_mask b
    · rw [hte]; exact trainStepEvents_batch run.gaussian_mask b
  · rw [← runSim_tail_irrel fs rn nc p T si va b rest rest2 vb run st0]
    exact hrun

/-- Witness for C5: a completed two-epoch SGD run over a two-batch training
loader; replacing the second batch leaves the run unchanged. -/
theorem train_phase_processes_only_first_batch_witness :
    ∃ (r : RunResult) (stf : TrainerState),
      runSim fsEmpty "osnet" 10 "none" 2 1 (fun _ => 0)
          [batch0, ⟨[7], [2]⟩] [] ⟨1, "SGD", false, false⟩ initState
        = .completed r stf ∧
      (∀ x ∈ r.epochResults,
        x.2.trainEvents = trainStepEvents false batch0) ∧
      runSim fsEmpty "osnet" 10 "none" 2 1 (fun _ => 0)
          [batch0, ⟨[9], [3]⟩] [] ⟨1, "SGD", false, false⟩ initState
        = .completed r stf := by
  obtain ⟨r, stf, hrun⟩ :
      ∃ r stf, runSim fsEmpty "osnet" 10 "none" 2 1 (fun _ => 0)
        [batch0, ⟨[7], [2]⟩] [] ⟨1, "SGD", false, false⟩ initState
        = .completed r stf := ⟨_, _, rfl⟩
  have h := train_phase_processes_only_first_batch fsEmpty "osnet" 10 "none"
    2 1 (fun _ => 0) batch0 [⟨[7], [2]⟩] [⟨[9], [3]⟩] []
    ⟨1, "SGD", false, false⟩ initState r stf hrun
  exact ⟨r, stf, hrun, fun x hx => (h.1 x hx).1, h.2⟩

/-- C6: in every completed run, the validation pass of an epoch executes
exactly when `epoch + 1` equals the configured total epoch count; when it
runs it iterates the entire validation loader with gradient computation
disabled (no zero_grad, backward or optimizer step among its calls),
tracking loss and accuracy for every batch; on all other epochs no
validation calls and no improvement write occur. -/
theorem validation_exactly_on_final_epoch (fs : FS) (rn : String) (nc : Nat)
    (p : String) (T si : Nat) (va : Nat → ℚ) (b : Batch)
    (rest vb : List Batch) (run : RunCfg) (st0 : TrainerState)
    (r : RunResult) (stf : TrainerState)
    (hrun : runSim fs rn nc p T si va (b :: rest) vb run st0
      = .completed r stf) :
    ∀ x ∈ r.epochResults,
      (x.2.valRan = true ↔ x.1 + 1 = T) ∧
      (x.2.valRan = true →
        x.2.valEvents = valPhaseEvents run.gaussian_mask vb ∧
        (∀ bb ∈ vb, StepEvent.forward bb ∈ x.2.valEvents ∧
          StepEvent.trackLoss bb ∈ x.2.valEvents ∧
          StepEvent.trackNumCorrect bb ∈ x.2.valEvents) ∧
        (∀ ev ∈ x.2.valEvents, StepEvent.isZeroGrad ev = false ∧
          StepEvent.isBackward ev = false ∧ StepEvent.isOptStep ev = false)) ∧
      (x.2.valRan = false → x.2.valEvents = [] ∧ x.2.improveSave = false) := by
  obtain ⟨st2, net, hload, hloop, hstart, hstf⟩ :=
    runSim_completed fs rn nc p T si va (b :: rest) vb run st0 r stf hrun
  refine epochLoop_results (selectOptimizer run.optim st2.lr).isSome
    T si run.gaussian_mask va (b :: rest) vb _
    (fun e best rr hh => ?_)
    (List.range' st2.start_epoch (T - st2.start_epoch)) st2.best_acc
    r.epochResults r.bestBeforeReset hloop
  have hs := epochBody_spec _ T si run.gaussian_mask (va e) b rest vb e best
    rr hh
  refine ⟨?_, ?_, ?_⟩
  · rw [hs.2.2.1]; exact beq_iff_eq
  · intro hv
    have hval := hs.2.2.2.1 hv
    refine ⟨hval.1, ?_, ?_⟩
    · intro bb hbb
      rw [hval.1]
      exact valPhaseEvents_covers run.gaussian_mask vb bb hbb
    · rw [hval.1]
      exact valPhaseEvents_no_grad run.gaussian_mask vb
  · intro hv
    have hval := hs.2.2.2.2.1 hv
    exact ⟨hval.1, hval.2.1⟩

/-- Witness for C6: a completed two-epoch run with one validation batch;
validation runs only at the final epoch. -/
theorem validation_exactly_on_final_epoch_witness :
    ∃ (r : RunResult) (stf : TrainerState),
      runSim fsEmpty "osnet" 10 "none" 2 1 (fun _ => 1) [batch0]
          [⟨[7], [2]⟩] ⟨1, "SGD", false, false⟩ initState
        = .completed r stf ∧
      (∀ x ∈ r.epochResults, x.2.valRan = true ↔ x.1 + 1 = 2) := by
  obtain ⟨r, stf, hrun⟩ :
      ∃ r stf, runSim fsEmpty "osnet" 10 "none" 2 1 (fun _ => 1) [batch0]
        [⟨[7], [2]⟩] ⟨1, "SGD", false, false⟩ initState
        = .completed r stf := ⟨_, _, rfl⟩
  have h := validation_exactly_on_final_epoch fsEmpty "osnet" 10 "none"
    2 1 (fun _ => 1) batch0 [] [⟨[7], [2]⟩] ⟨1, "SGD", false, false⟩
    initState r stf hrun
  exact ⟨r, stf, hrun, fun x hx => (h x hx).1⟩

/-- C8 (counterexample): the claim says a run with an unknown optimizer kind
always proceeds into the epoch loop.  A run configured with optimizer kind
"RMSprop" and `reduce_lr` set aborts at scheduler construction — the first
use of the unbound local `optimizer` (line 127) — *before* the epoch
loop. -/
theorem unbound_optimizer_aborts_before_epoch_loop :
    runSim fsEmpty "osnet" 10 "none" 3 1 (fun _ => 0) [batch0] []
        ⟨1, "RMSprop", true, false⟩ initState
      = .abortedBeforeEpochLoop .unboundLocalOptimizer ∧
    selectOptimizer "RMSprop" 1 = none :=
  ⟨rfl, rfl⟩

/-- C8 (amended): for a run whose optimizer kind is neither "SGD" nor "Adam",
the selection of lines 116–123 falls through leaving the local `optimizer`
unbound, and the run does not fail fast at selection; the `UnboundLocalError`
surfaces at the first use of the name — at scheduler construction, before
the epoch loop, when the run requests `reduce_lr`, and otherwise at the
first `optimizer.zero_grad()` inside the first epoch of the loop. -/
theorem unbound_optimizer_fails_at_first_use (fs : FS) (rn : String)
    (nc : Nat) (p : String) (T si : Nat) (va : Nat → ℚ) (b : Batch)
    (rest vb : List Batch) (run : RunCfg) (st0 : TrainerState)
    (hs : run.optim ≠ "SGD") (ha : run.optim ≠ "Adam") (hfs : fs p = none) :
    (∀ lr : ℚ, selectOptimizer run.optim lr = none) ∧
    (run.reduce_lr = true →
      runSim fs rn nc p T si va (b :: rest) vb run st0 =
        .abortedBeforeEpochLoop .unboundLocalOptimizer) ∧
    (run.reduce_lr = false → st0.start_epoch < T →
      runSim fs rn nc p T si va (b :: rest) vb run st0 =
        .abortedInEpochLoop st0.start_epoch .unboundLocalOptimizer) := by
  have hsel : ∀ lr : ℚ, selectOptimizer run.optim lr = none := by
    intro lr; simp [selectOptimizer, hs, ha]
  refine ⟨hsel, ?_, ?_⟩
  · intro hr
    simp [runSim, load_model, hfs, hsel, hr]
  · intro hr hlt
    obtain ⟨k, hk⟩ : ∃ k, T - st0.start_epoch = k + 1 :=
      ⟨T - st0.start_epoch - 1, by omega⟩
    simp only [runSim, load_model, hfs, hsel, hr]
    simp only [hk, List.range']
    simp [epochLoop, epochBody, Option.isSome]

/-- Witness for the amended C8 theorem with optimizer kind "RMSprop". -/
theorem unbound_optimizer_fails_at_first_use_witness :
    selectOptimizer "RMSprop" 1 = none ∧
    runSim fsEmpty "osnet" 10 "none" 3 1 (fun _ => 0) [batch0] []
        ⟨1, "RMSprop", false, false⟩ initState
      = .abortedInEpochLoop 0 .unboundLocalOptimizer := by
  have h := unbound_optimizer_fails_at_first_use fsEmpty "osnet" 10 "none"
    3 1 (fun _ => 0) batch0 [] [] ⟨1, "RMSprop", false, false⟩ initState
    (by decide) (by decide) rfl
  exact ⟨h.1 1, h.2.2 rfl (by decide)⟩

/-- C9: `load_data` constructs the training and the validation loader from
identical `get_dataset` calls — same split (`mode='val'`), same root — with
shuffling disabled and the same batch size and worker count, so the training
loop consumes data drawn from the validation split; and because the loaders
are unshuffled, the single batch the training phase processes is the same
first batch at every epoch of a run. -/
theorem loaders_identical_val_split (rn : String) (dcfg : DatasetCfg)
    (root : String) (fs : FS) (nc : Nat) (p : String) (T si : Nat)
    (va : Nat → ℚ) (b : Batch) (rest vb : List Batch) (run : RunCfg)
    (st0 : TrainerState) (r : RunResult) (stf : TrainerState)
    (hrun : runSim fs rn nc p T si va (b :: rest) vb run st0
      = .completed r stf) :
    (load_data rn dcfg root).1 = (load_data rn dcfg root).2 ∧
    (load_data rn dcfg root).1.dataset.mode = "val" ∧
    (load_data rn dcfg root).1.dataset.root = root ∧
    (load_data rn dcfg root).1.shuffle = false ∧
    (load_data rn dcfg root).1.batch_size = dcfg.batch_size ∧
    (load_data rn dcfg root).1.num_workers = dcfg.workers ∧
    (∀ x ∈ r.epochResults, ∀ y ∈ r.epochResults,
      x.2.trainEvents = y.2.trainEvents) := by
  obtain ⟨st2, net, hload, hloop, hstart, hstf⟩ :=
    runSim_completed fs rn nc p T si va (b :: rest) vb run st0 r stf hrun
  refine ⟨rfl, rfl, rfl, rfl, rfl, rfl, ?_⟩
  have hte := epochLoop_results (selectOptimizer run.optim st2.lr).isSome
    T si run.gaussian_mask va (b :: rest) vb
    (fun x => x.2.trainEvents = trainStepEvents run.gaussian_mask b)
    (fun e best rr hh =>
      (epochBody_spec _ T si run.gaussian_mask (va e) b rest vb e best rr hh).1)
    (List.range' st2.start_epoch (T - st2.start_epoch)) st2.best_acc
    r.epochResults r.bestBeforeReset hloop
  intro x hx y hy
  rw [hte x hx, hte y hy]

/-- Witness for C9 on a concrete configuration and completed run. -/
theorem loaders_identical_val_split_witness :
    (load_data "osnet" ⟨"market1501", 32, 4⟩ "data").1
      = (load_data "osnet" ⟨"market1501", 32, 4⟩ "data").2 ∧
    (load_data "osnet" ⟨"market1501", 32, 4⟩ "data").1.dataset.mode = "val" ∧
    ∃ (r : RunResult) (stf : TrainerState),
      runSim fsEmpty "osnet" 10 "none" 2 1 (fun _ => 0) [batch0] []
          ⟨1, "SGD", false, false⟩ initState = .completed r stf ∧
      (∀ x ∈ r.epochResults, ∀ y ∈ r.epochResults,
        x.2.trainEvents = y.2.trainEvents) := by
  obtain ⟨r, stf, hrun⟩ :
      ∃ r stf, runSim fsEmpty "osnet" 10 "none" 2 1 (fun _ => 0) [batch0] []
        ⟨1, "SGD", false, false⟩ initState = .completed r stf := ⟨_, _, rfl⟩
  have h := loaders_identical_val_split "osnet" ⟨"market1501", 32, 4⟩ "data"
    fsEmpty 10 "none" 2 1 (fun _ => 0) batch0 [] [] ⟨1, "SGD", false, false⟩
    initState r stf hrun
  exact ⟨h.1, h.2.1, r, stf, hrun, h.2.2.2.2.2.2⟩

/-- C10: `setup_device` evaluates `f'cuda:{cfg.GPU}'` with the *global* name
`cfg` rather than its `device_id` parameter: for any `device_id ≥ 0` with
CUDA available it raises `NameError` when no module-level `cfg` binding
exists, and otherwise returns the device built from the global `cfg.GPU`,
whatever the argument was. -/
theorem setup_device_reads_global_cfg (device_id : Int) (hd : 0 ≤ device_id) :
    setup_device none true device_id = .error .nameErrorCfg ∧
    (∀ g : Int, setup_device (some g) true device_id = .ok (.cuda g)) := by
  constructor
  · simp [setup_device, hd]
  · intro g; simp [setup_device, hd]

/-- Witness for C10 at `device_id = 3`, global `cfg.GPU = 0`. -/
theorem setup_device_reads_global_cfg_witness :
    (0:Int) ≤ 3 ∧ setup_device none true 3 = .error .nameErrorCfg ∧
      setup_device (some 0) true 3 = .ok (.cuda 0) :=
  ⟨by decide, (setup_device_reads_global_cfg 3 (by decide)).1,
   (setup_device_reads_global_cfg 3 (by decide)).2 0⟩

end Claims

end Trainer
